import Mathlib

/-!
Shallow embedding of the triploga-be trip-logging service
(src/app/models.py, src/app/views.py, src/app/urls.py).

The service persists truck trips, calls OpenRouteService to geocode the
three locations and route the two legs, applies the 70-hour
hours-of-service rule, and renders a fixed-layout ELD log PDF.

Modelling conventions:
  * Python floats are embedded as exact rationals (ℚ); the model's
    `IntegerField` becomes ℤ.
  * The two outbound network calls (geocode, directions) are embedded as
    an environment record holding the parsed JSON responses the handler
    reads; the handler is then a pure function of request, store and
    environment.  An exception raised while indexing into a response
    (the `except` branch of `TripAPI.post`) is the `internalError`
    outcome.
  * The persisted table is a list of `Trip` records plus an
    auto-increment id counter.
  * reportlab's canvas is embedded as a list of positioned text draws;
    `showPage` boundaries give the page list of the produced document.
-/

/-- A persisted Trip record (src/app/models.py).  `current_cycle_used`
is a Django `IntegerField`, hence ℤ; `created_at` is `auto_now_add`,
modelled as a timestamp supplied by the caller's clock. -/
structure Trip where
  id : Nat
  current_location : String
  pickup_location : String
  dropoff_location : String
  current_cycle_used : Int
  created_at : Nat
deriving Repr, DecidableEq

/-- The rational value of a trip's stored cycle hours, as used by the
hours computation and the ELD renderer (the Python int participates in
float arithmetic). -/
def Trip.cycleAsRat (t : Trip) : ℚ := (t.current_cycle_used : ℚ)

/-- The Trip table: persisted rows plus the auto-increment id counter. -/
structure Store where
  trips : List Trip
  next_id : Nat
deriving Repr, DecidableEq

/-- A store is well formed when every persisted id is below the
auto-increment counter (Django's primary-key invariant). -/
def Store.wf (s : Store) : Prop := ∀ t ∈ s.trips, t.id < s.next_id

instance (s : Store) : Decidable s.wf := by
  unfold Store.wf
  infer_instance

/-- The request body of `POST /trips/` after JSON parsing. -/
structure TripRequest where
  current_location : String
  pickup_location : String
  dropoff_location : String
  current_cycle_used : Int
deriving Repr, DecidableEq

/-- Modelled from the spec: `src/app/serializers.py` (the
`TripSerializer` imported by views.py) is not under src/.  Spec §4.4
step 1 requires all fields present/non-empty and
`current_cycle_used ≥ 0`; the model bounds each location at 100
characters (`max_length=100` in models.py). -/
def TripSerializer.is_valid (r : TripRequest) : Bool :=
  !(r.current_location == "") && decide (r.current_location.length ≤ 100) &&
  !(r.pickup_location == "") && decide (r.pickup_location.length ≤ 100) &&
  !(r.dropoff_location == "") && decide (r.dropoff_location.length ≤ 100) &&
  decide (0 ≤ r.current_cycle_used)

/-- One step of a directions segment; `instruction` is read with
`step.get("instruction", "No instruction")`, hence optional. -/
structure StepRaw where
  instruction : Option String
deriving Repr, DecidableEq

/-- One segment of a directions route. -/
structure SegmentRaw where
  steps : List StepRaw
deriving Repr, DecidableEq

/-- The `summary` object of a directions route: distance in meters,
duration in seconds. -/
structure SummaryRaw where
  distance : ℚ
  duration : ℚ
deriving Repr, DecidableEq

/-- One route of a directions response. -/
structure RouteRaw where
  summary : SummaryRaw
  segments : List SegmentRaw
deriving Repr, DecidableEq

/-- Parsed body of a directions call (`routes` array). -/
structure DirectionsResponse where
  routes : List RouteRaw
deriving Repr, DecidableEq

/-- One feature of a geocoding response; only
`geometry.coordinates` is read. -/
structure GeocodeFeature where
  coordinates : ℚ × ℚ
deriving Repr, DecidableEq

/-- Parsed body of a geocoding call (`features` array). -/
structure GeocodeResponse where
  features : List GeocodeFeature
deriving Repr, DecidableEq

/-- The parsed responses of the five outbound OpenRouteService calls
made by `TripAPI.post`, in call order. -/
structure OrsEnv where
  current_geocode : GeocodeResponse
  pickup_geocode : GeocodeResponse
  dropoff_geocode : GeocodeResponse
  directions_current_to_pickup : DirectionsResponse
  directions_pickup_to_dropoff : DirectionsResponse
deriving Repr, DecidableEq

/-- Round-half-to-even at two decimals scaled by 100, modelling the
rounding of Python's `f"{x:.2f}"` formatting. -/
def roundHalfEven2 (x : ℚ) : ℤ :=
  let n := ⌊x * 100⌋
  let f := x * 100 - (n : ℚ)
  if f < 1 / 2 then n
  else if 1 / 2 < f then n + 1
  else if n % 2 = 0 then n else n + 1

/-- The two-decimal string produced by `f"{x:.2f}"` (for the
non-negative distances and durations the handler formats). -/
def fmt2 (x : ℚ) : String :=
  let c := (roundHalfEven2 x).toNat
  toString (c / 100) ++ "." ++ (if c % 100 < 10 then "0" else "") ++ toString (c % 100)

/-- The per-leg block of the created response. -/
structure LegInfo where
  distance : String
  duration : String
  steps : List String
deriving Repr, DecidableEq

/-- The `route` block of the created response. -/
structure RouteInfo where
  current_to_pickup : LegInfo
  pickup_to_dropoff : LegInfo
  total_distance : String
  total_duration : String
  fueling_stops : ℤ
deriving Repr, DecidableEq

/-- The 201 response body of a successful create. -/
structure CreatedResponse where
  trip : Trip
  route : RouteInfo
  current_cycle_used : Int
  hours_remaining : ℚ
deriving Repr, DecidableEq

/-- Outcome of `TripAPI.post`, one constructor per `Response` the
handler can return. -/
inductive PostOutcome where
  | validationError
  | locationsRequired
  | geocodingError
  | routingError
  | hoursLimitExceeded
  | created (resp : CreatedResponse)
  | internalError
deriving Repr, DecidableEq

/-- HTTP status of each `TripAPI.post` outcome. -/
def PostOutcome.statusCode : PostOutcome → Nat
  | .validationError => 400
  | .locationsRequired => 400
  | .geocodingError => 400
  | .routingError => 400
  | .hoursLimitExceeded => 400
  | .created _ => 201
  | .internalError => 500

/-- `TripAPI.post` (src/app/views.py lines 25–124): validate, geocode
all three locations, route the two legs, apply the 70-hour rule,
persist, and build the response.  `now` is the wall clock read by
`auto_now_add`.  The trip is saved before the `steps` lists are
extracted, so a route with no segments raises after persistence and
yields `internalError` with the row already written. -/
def TripAPI.post (store : Store) (data : TripRequest) (env : OrsEnv) (now : Nat) :
    PostOutcome × Store :=
  if TripSerializer.is_valid data then
    if data.current_location == "" || data.pickup_location == "" || data.dropoff_location == "" then
      (.locationsRequired, store)
    else
      if env.current_geocode.features.isEmpty || env.pickup_geocode.features.isEmpty ||
          env.dropoff_geocode.features.isEmpty then
        (.geocodingError, store)
      else
        match env.directions_current_to_pickup.routes, env.directions_pickup_to_dropoff.routes with
        | r1 :: _, r2 :: _ =>
          let distance_current_to_pickup_km := r1.summary.distance / 1000
          let duration_current_to_pickup_hrs := r1.summary.duration / 3600
          let distance_pickup_to_dropoff_km := r2.summary.distance / 1000
          let duration_pickup_to_dropoff_hrs := r2.summary.duration / 3600
          let total_distance_km := distance_current_to_pickup_km + distance_pickup_to_dropoff_km
          let total_duration_hrs := duration_current_to_pickup_hrs + duration_pickup_to_dropoff_hrs + 2
          if (data.current_cycle_used : ℚ) + total_duration_hrs > 70 then
            (.hoursLimitExceeded, store)
          else
            let fueling_stops : ℤ := ⌊total_distance_km / 1609⌋
            let trip : Trip :=
              ⟨store.next_id, data.current_location, data.pickup_location,
                data.dropoff_location, data.current_cycle_used, now⟩
            let store' : Store := ⟨store.trips ++ [trip], store.next_id + 1⟩
            match r1.segments, r2.segments with
            | sg1 :: _, sg2 :: _ =>
              (.created
                ⟨trip,
                  ⟨⟨fmt2 distance_current_to_pickup_km ++ " km",
                    fmt2 duration_current_to_pickup_hrs ++ " hrs",
                    sg1.steps.map (fun st => st.instruction.getD "No instruction")⟩,
                   ⟨fmt2 distance_pickup_to_dropoff_km ++ " km",
                    fmt2 duration_pickup_to_dropoff_hrs ++ " hrs",
                    sg2.steps.map (fun st => st.instruction.getD "No instruction")⟩,
                   fmt2 total_distance_km ++ " km",
                   fmt2 total_duration_hrs ++ " hrs",
                   fueling_stops⟩,
                  data.current_cycle_used,
                  70 - ((data.current_cycle_used : ℚ) + total_duration_hrs)⟩,
                store')
            | _, _ => (.internalError, store')
        | _, _ => (.routingError, store)
  else (.validationError, store)

/-- Outcome of `TripAPI.get`. -/
inductive GetOutcome where
  | found (t : Trip)
  | notFound
  | listing (ts : List Trip)
deriving Repr, DecidableEq

/-- HTTP status of each `TripAPI.get` outcome. -/
def GetOutcome.statusCode : GetOutcome → Nat
  | .found _ => 200
  | .notFound => 404
  | .listing _ => 200

/-- `TripAPI.get` (src/app/views.py lines 127–143): with a pk, look the
trip up by id (404 when absent); without one, list all trips. -/
def TripAPI.get (store : Store) (pk : Option Nat) : GetOutcome :=
  match pk with
  | some n =>
    match store.trips.find? (fun t => t.id == n) with
    | some t => .found t
    | none => .notFound
  | none => .listing store.trips

/-- One positioned text draw on the reportlab canvas. -/
structure DrawCmd where
  x : Nat
  y : Nat
  text : String
deriving Repr, DecidableEq

/-- The draw commands of the single ELD log page, in source order
(src/app/views.py lines 165–203).  `dateStr` is the formatted wall
clock read by `datetime.now()`. -/
def eldPage (trip : Trip) (dateStr : String) : List DrawCmd :=
  [⟨80, 750, "Driver\x27s Daily Log (24 Hours)"⟩,
   ⟨80, 730, "Date: " ++ dateStr⟩,
   ⟨80, 710, "From: " ++ trip.pickup_location⟩,
   ⟨80, 690, "To: " ++ trip.dropoff_location⟩,
   ⟨80, 670, "---"⟩,
   ⟨80, 650, "Hours of Service Log"⟩,
   ⟨80, 630, "| Hour  | 12 AM | 1 AM | 2 AM | 3 AM | 4 AM | 5 AM | 6 AM | 7 AM | 8 AM | 9 AM | 10 AM | 11 AM |"⟩,
   ⟨80, 610, "|-------|------|------|------|------|------|------|------|------|------|------|------|------|"⟩,
   ⟨80, 590, "| Status | ____ | ____ | ____ | ____ | ____ | ____ | ____ | ____ | ____ | ____ | ____ | ____ |"⟩,
   ⟨80, 570, "| Hour  | 12 PM | 1 PM | 2 PM | 3 PM | 4 PM | 5 PM | 6 PM | 7 PM | 8 PM | 9 PM | 10 PM | 11 PM |"⟩,
   ⟨80, 550, "| Status | ____ | ____ | ____ | ____ | ____ | ____ | ____ | ____ | ____ | ____ | ____ | ____ |"⟩,
   ⟨80, 530, "Status Codes:"⟩,
   ⟨80, 510, "1. Off Duty (OFF)"⟩,
   ⟨80, 490, "2. Sleeper Berth (SB)"⟩,
   ⟨80, 470, "3. Driving (D)"⟩,
   ⟨80, 450, "4. On Duty (Not Driving) (ON)"⟩,
   ⟨80, 430, "---"⟩,
   ⟨80, 410, "Recap Summary"⟩,
   ⟨80, 390, "- On Duty Hours Today: " ++ toString trip.current_cycle_used ++ " hrs"⟩,
   ⟨80, 370, "- Total Hours in Last 7 Days (70-hour rule): " ++ toString trip.current_cycle_used ++ " hrs"⟩,
   ⟨80, 350, "- Total Hours in Last 8 Days (60-hour rule): " ++ toString trip.current_cycle_used ++ " hrs"⟩,
   ⟨80, 330, "- If 34-Hour Reset Taken, Available Hours: _______________"⟩,
   ⟨80, 310, "---"⟩,
   ⟨80, 290, "Driver\x27s Signature: ________________________"⟩,
   ⟨80, 270, "Date: _______________"⟩]

/-- Outcome of `ELDLogAPI.get`: 404, or a `FileResponse` whose payload
is the list of PDF pages (one entry per `showPage`). -/
inductive EldOutcome where
  | notFound
  | pdf (pages : List (List DrawCmd)) (filename : String) (as_attachment : Bool)
deriving Repr, DecidableEq

/-- HTTP status of each `ELDLogAPI.get` outcome. -/
def EldOutcome.statusCode : EldOutcome → Nat
  | .notFound => 404
  | .pdf _ _ _ => 200

/-- `ELDLogAPI.get` (src/app/views.py lines 151–207): look the trip up
(404 when absent), draw the fixed page, call `showPage` once, and
return the buffer as a downloadable attachment. -/
def ELDLogAPI.get (store : Store) (trip_id : Nat) (dateStr : String) : EldOutcome :=
  match store.trips.find? (fun t => t.id == trip_id) with
  | none => .notFound
  | some trip =>
    .pdf [eldPage trip dateStr] ("ELD_Log_Trip_" ++ toString trip.id ++ ".pdf") true

/-- Test fixture: a geocoding response with a single feature. -/
def oneFeature : GeocodeResponse := ⟨[⟨(0, 0)⟩]⟩

/-- Test fixture: the empty Trip table with the auto-increment counter at 1
(Django ids start at 1). -/
def emptyStore : Store := ⟨[], 1⟩

/-- The Trip row written by `serializer.save()`: the request fields under the
next auto-increment id, stamped with the current clock. -/
def newTrip (s : Store) (r : TripRequest) (now : Nat) : Trip :=
  ⟨s.next_id, r.current_location, r.pickup_location, r.dropoff_location,
    r.current_cycle_used, now⟩

/-- The per-leg block the handler assembles from one route of a directions
response: formatted distance and duration plus the step instructions. -/
def legResponse (rt : RouteRaw) (sg : SegmentRaw) : LegInfo :=
  ⟨fmt2 (rt.summary.distance / 1000) ++ " km",
   fmt2 (rt.summary.duration / 3600) ++ " hrs",
   sg.steps.map (fun st => st.instruction.getD "No instruction")⟩

/-- The 201 body the handler assembles in the success branch, one field per
entry of the Python response dict. -/
def createdResponse (s : Store) (r : TripRequest) (rt1 rt2 : RouteRaw)
    (sg1 sg2 : SegmentRaw) (now : Nat) : CreatedResponse :=
  ⟨newTrip s r now,
    ⟨legResponse rt1 sg1, legResponse rt2 sg2,
     fmt2 (rt1.summary.distance / 1000 + rt2.summary.distance / 1000) ++ " km",
     fmt2 (rt1.summary.duration / 3600 + rt2.summary.duration / 3600 + 2) ++ " hrs",
     ⌊(rt1.summary.distance / 1000 + rt2.summary.distance / 1000) / 1609⌋⟩,
   r.current_cycle_used,
   70 - ((r.current_cycle_used : ℚ) +
     (rt1.summary.duration / 3600 + rt2.summary.duration / 3600 + 2))⟩

/-- The rational value of the source formatting rounding `f"...:.2f"` at two
decimals: `roundHalfEven2` scaled back down.  Used to state that the 70-hour
comparison is not performed on rounded values. -/
def round2 (x : ℚ) : ℚ := (roundHalfEven2 x : ℚ) / 100

/-- Test fixture: a directions segment with one step. -/
def sgGo : SegmentRaw := ⟨[⟨some "Head north"⟩]⟩

/-- Test fixture: a 1 km leg taking 0 s. -/
def rtA : RouteRaw := ⟨⟨1000, 0⟩, [sgGo]⟩

/-- Test fixture: a 2 km leg taking 0 s. -/
def rtB : RouteRaw := ⟨⟨2000, 0⟩, [sgGo]⟩

/-- Test fixture: a zero-length leg. -/
def rtZ : RouteRaw := ⟨⟨0, 0⟩, [sgGo]⟩

/-- Test fixture: a 1609 km leg (exactly one fueling interval). -/
def rtF1 : RouteRaw := ⟨⟨1609000, 0⟩, [sgGo]⟩

/-- Test fixture: a 1608.9 km leg (just under one fueling interval). -/
def rtF2 : RouteRaw := ⟨⟨1608900, 0⟩, [sgGo]⟩

/-- Test fixture: a 3218 km leg (two fueling intervals). -/
def rtF3 : RouteRaw := ⟨⟨3218000, 0⟩, [sgGo]⟩

/-- Test fixture: a leg of 244803.6 s = 68.001 h, putting the trip total at
70.001 h, within two-decimal rounding distance of the 70-hour limit. -/
def rtP : RouteRaw := ⟨⟨1000, 2448036 / 10⟩, [sgGo]⟩

/-- Test fixture: a request with 68 cycle hours already used. -/
def hoursRequest : TripRequest := ⟨"Chicago IL", "Denver CO", "Dallas TX", 68⟩

/-- Test fixture: a request with an empty current location. -/
def invalidRequest : TripRequest := ⟨"", "Denver CO", "Dallas TX", 5⟩

/-- Test fixture: a request with zero cycle hours used. -/
def fuelRequest : TripRequest := ⟨"Chicago IL", "Denver CO", "Dallas TX", 0⟩

/-- Test fixture: successful geocoding, legs `rtA` and `rtB`. -/
def envAB : OrsEnv := ⟨oneFeature, oneFeature, oneFeature, ⟨[rtA]⟩, ⟨[rtB]⟩⟩

/-- Test fixture: an environment whose every call fails. -/
def envAlt : OrsEnv := ⟨⟨[]⟩, ⟨[]⟩, ⟨[]⟩, ⟨[]⟩, ⟨[]⟩⟩

/-- Test fixture: a trip of 1609 km in total. -/
def envF1 : OrsEnv := ⟨oneFeature, oneFeature, oneFeature, ⟨[rtF1]⟩, ⟨[rtZ]⟩⟩

/-- Test fixture: a trip of 1608.9 km in total. -/
def envF2 : OrsEnv := ⟨oneFeature, oneFeature, oneFeature, ⟨[rtF2]⟩, ⟨[rtZ]⟩⟩

/-- Test fixture: a trip of 3218 km in total. -/
def envF3 : OrsEnv := ⟨oneFeature, oneFeature, oneFeature, ⟨[rtF3]⟩, ⟨[rtZ]⟩⟩

/-- Test fixture: a trip whose total duration is 70.001 h. -/
def envP : OrsEnv := ⟨oneFeature, oneFeature, oneFeature, ⟨[rtP]⟩, ⟨[rtZ]⟩⟩

/-- Test fixture: a persisted trip with 10 cycle hours. -/
def tripOne : Trip := ⟨1, "Chicago IL", "Denver CO", "Dallas TX", 10, 0⟩

/-- Test fixture: a store holding exactly `tripOne`. -/
def storeOne : Store := ⟨[tripOne], 2⟩

/-- A request the serializer accepted has three non-empty locations, so the
redundant location guard in `TripAPI.post` never fires. -/
lemma is_valid_locations (r : TripRequest) (hv : TripSerializer.is_valid r = true) :
    (r.current_location == "" || r.pickup_location == "" ||
      r.dropoff_location == "") = false := by
  simp only [TripSerializer.is_valid, Bool.and_eq_true, Bool.not_eq_true',
    decide_eq_true_eq] at hv
  simp [hv.1.1.1.1.1.1, hv.1.1.1.1.2, hv.1.1.2]

/-- With valid fields, successful geocoding and two routes each carrying a
segment, `TripAPI.post` reduces to the 70-hour decision between rejection and
persistence. -/
lemma trip_post_reduce (s : Store) (r : TripRequest) (env : OrsEnv) (now : Nat)
    (rt1 rt2 : RouteRaw) (l1 l2 : List RouteRaw) (sg1 sg2 : SegmentRaw)
    (tl1 tl2 : List SegmentRaw)
    (hv : TripSerializer.is_valid r = true)
    (hg1 : env.current_geocode.features.isEmpty = false)
    (hg2 : env.pickup_geocode.features.isEmpty = false)
    (hg3 : env.dropoff_geocode.features.isEmpty = false)
    (hr1 : env.directions_current_to_pickup.routes = rt1 :: l1)
    (hr2 : env.directions_pickup_to_dropoff.routes = rt2 :: l2)
    (hseg1 : rt1.segments = sg1 :: tl1) (hseg2 : rt2.segments = sg2 :: tl2) :
    TripAPI.post s r env now =
      if (r.current_cycle_used : ℚ) +
          (rt1.summary.duration / 3600 + rt2.summary.duration / 3600 + 2) > 70 then
        (PostOutcome.hoursLimitExceeded, s)
      else
        (PostOutcome.created (createdResponse s r rt1 rt2 sg1 sg2 now),
          ⟨s.trips ++ [newTrip s r now], s.next_id + 1⟩) := by
  have hne := is_valid_locations r hv
  simp only [TripAPI.post, hv, hne, hg1, hg2, hg3, hr1, hr2, hseg1, hseg2,
    Bool.or_self, Bool.false_eq_true, if_true, if_false, ite_true, ite_false,
    createdResponse, newTrip, legResponse]

/-- Inversion: a 201 outcome pins down the persisted row and the new store. -/
lemma trip_post_created_inv (s : Store) (r : TripRequest) (env : OrsEnv)
    (now : Nat) (resp : CreatedResponse)
    (hc : (TripAPI.post s r env now).1 = PostOutcome.created resp) :
    resp.trip = newTrip s r now ∧
    (TripAPI.post s r env now).2 =
      ⟨s.trips ++ [newTrip s r now], s.next_id + 1⟩ := by
  cases hv : TripSerializer.is_valid r with
  | false => simp [TripAPI.post, hv] at hc
  | true =>
    have hne := is_valid_locations r hv
    cases hg1 : env.current_geocode.features.isEmpty with
    | true => simp [TripAPI.post, hv, hne, hg1] at hc
    | false =>
      cases hg2 : env.pickup_geocode.features.isEmpty with
      | true => simp [TripAPI.post, hv, hne, hg1, hg2] at hc
      | false =>
        cases hg3 : env.dropoff_geocode.features.isEmpty with
        | true => simp [TripAPI.post, hv, hne, hg1, hg2, hg3] at hc
        | false =>
          rcases hr1 : env.directions_current_to_pickup.routes with _ | ⟨rt1, l1⟩
          · simp [TripAPI.post, hv, hne, hg1, hg2, hg3, hr1] at hc
          rcases hr2 : env.directions_pickup_to_dropoff.routes with _ | ⟨rt2, l2⟩
          · simp [TripAPI.post, hv, hne, hg1, hg2, hg3, hr1, hr2] at hc
          simp only [TripAPI.post, hv, hne, hg1, hg2, hg3, hr1, hr2, Bool.or_self,
            Bool.false_eq_true, if_true, if_false, ite_true, ite_false] at hc ⊢
          by_cases hlim : (r.current_cycle_used : ℚ) +
              (rt1.summary.duration / 3600 + rt2.summary.duration / 3600 + 2) > 70
          · rw [if_pos hlim] at hc
            exact absurd hc (by simp)
          · rw [if_neg hlim] at hc ⊢
            rcases hseg1 : rt1.segments with _ | ⟨sg1, tl1⟩ <;>
              rcases hseg2 : rt2.segments with _ | ⟨sg2, tl2⟩ <;>
                simp only [hseg1, hseg2] at hc ⊢
            · exact absurd hc (by simp)
            · exact absurd hc (by simp)
            · exact absurd hc (by simp)
            · rw [PostOutcome.created.injEq] at hc
              subst hc
              exact ⟨rfl, rfl⟩

/-- Looking up a freshly appended row by its id finds it when no earlier row
shares the id. -/
lemma find_append_self (l : List Trip) (t : Trip) (h : ∀ u ∈ l, u.id ≠ t.id) :
    (l ++ [t]).find? (fun u => u.id == t.id) = some t := by
  induction l with
  | nil => simp
  | cons a l ih =>
    have ha : (a.id == t.id) = false := by simpa using h a (by simp)
    simp only [List.cons_append, List.find?_cons, ha]
    exact ih (fun u hu => h u (by simp [hu]))

/-- `TripAPI.post` either fails before persistence with the store unchanged, or
appends exactly one row after geocoding, routing and the hours check have all
succeeded. -/
lemma trip_post_shape (s : Store) (r : TripRequest) (env : OrsEnv) (now : Nat) :
    ((TripAPI.post s r env now).2 = s ∧
      ((TripAPI.post s r env now).1 = PostOutcome.validationError ∨
       (TripAPI.post s r env now).1 = PostOutcome.locationsRequired ∨
       (TripAPI.post s r env now).1 = PostOutcome.geocodingError ∨
       (TripAPI.post s r env now).1 = PostOutcome.routingError ∨
       (TripAPI.post s r env now).1 = PostOutcome.hoursLimitExceeded)) ∨
    ((TripAPI.post s r env now).2 =
        ⟨s.trips ++ [newTrip s r now], s.next_id + 1⟩ ∧
      env.current_geocode.features.isEmpty = false ∧
      env.pickup_geocode.features.isEmpty = false ∧
      env.dropoff_geocode.features.isEmpty = false ∧
      (∃ rt1 l1 rt2 l2, env.directions_current_to_pickup.routes = rt1 :: l1 ∧
        env.directions_pickup_to_dropoff.routes = rt2 :: l2 ∧
        (r.current_cycle_used : ℚ) +
          (rt1.summary.duration / 3600 + rt2.summary.duration / 3600 + 2) ≤ 70) ∧
      ((∃ resp, (TripAPI.post s r env now).1 = PostOutcome.created resp) ∨
        (TripAPI.post s r env now).1 = PostOutcome.internalError)) := by
  cases hv : TripSerializer.is_valid r with
  | false =>
    left
    constructor <;> simp [TripAPI.post, hv]
  | true =>
    have hne := is_valid_locations r hv
    cases hg1 : env.current_geocode.features.isEmpty with
    | true =>
      left
      constructor <;> simp [TripAPI.post, hv, hne, hg1]
    | false =>
      cases hg2 : env.pickup_geocode.features.isEmpty with
      | true =>
        left
        constructor <;> simp [TripAPI.post, hv, hne, hg1, hg2]
      | false =>
        cases hg3 : env.dropoff_geocode.features.isEmpty with
        | true =>
          left
          constructor <;> simp [TripAPI.post, hv, hne, hg1, hg2, hg3]
        | false =>
          rcases hr1 : env.directions_current_to_pickup.routes with _ | ⟨rt1, l1⟩
          · left
            constructor <;> simp [TripAPI.post, hv, hne, hg1, hg2, hg3, hr1]
          rcases hr2 : env.directions_pickup_to_dropoff.routes with _ | ⟨rt2, l2⟩
          · left
            constructor <;> simp [TripAPI.post, hv, hne, hg1, hg2, hg3, hr1, hr2]
          by_cases hlim : (r.current_cycle_used : ℚ) +
              (rt1.summary.duration / 3600 + rt2.summary.duration / 3600 + 2) > 70
          · left
            constructor <;>
              simp [TripAPI.post, hv, hne, hg1, hg2, hg3, hr1, hr2, if_pos hlim]
          · right
            have hbase : ∀ (P : PostOutcome × Store → Prop),
                P (if (r.current_cycle_used : ℚ) +
                    (rt1.summary.duration / 3600 + rt2.summary.duration / 3600 + 2) > 70 then
                    (PostOutcome.hoursLimitExceeded, s)
                  else
                    match rt1.segments, rt2.segments with
                    | sg1 :: _, sg2 :: _ =>
                      (PostOutcome.created (createdResponse s r rt1 rt2 sg1 sg2 now),
                        (⟨s.trips ++ [newTrip s r now], s.next_id + 1⟩ : Store))
                    | _, _ =>
                      (PostOutcome.internalError,
                        (⟨s.trips ++ [newTrip s r now], s.next_id + 1⟩ : Store))) →
                P (TripAPI.post s r env now) := by
              intro P hP
              simp only [TripAPI.post, hv, hne, hg1, hg2, hg3, hr1, hr2, Bool.or_self,
                Bool.false_eq_true, if_true, if_false, ite_true, ite_false]
              simpa [createdResponse, newTrip, legResponse] using hP
            refine ⟨?_, rfl, rfl, rfl, ⟨rt1, l1, rt2, l2, rfl, rfl, not_lt.mp hlim⟩, ?_⟩
            · refine hbase (fun p => p.2 = ⟨s.trips ++ [newTrip s r now], s.next_id + 1⟩) ?_
              rw [if_neg hlim]
              rcases rt1.segments with _ | ⟨sg1, tl1⟩ <;> rcases rt2.segments with _ | ⟨sg2, tl2⟩ <;> rfl
            · refine hbase (fun p => (∃ resp, p.1 = PostOutcome.created resp) ∨
                p.1 = PostOutcome.internalError) ?_
              rw [if_neg hlim]
              rcases rt1.segments with _ | ⟨sg1, tl1⟩ <;> rcases rt2.segments with _ | ⟨sg2, tl2⟩
              · exact Or.inr rfl
              · exact Or.inr rfl
              · exact Or.inr rfl
              · exact Or.inl ⟨_, rfl⟩

/-- Evaluating the handler on `hoursRequest` (68 h used, 2 h trip: exactly the
70-hour boundary): the trip is accepted and persisted. -/
lemma post_hoursRequest_envAB :
    TripAPI.post emptyStore hoursRequest envAB 0 =
      (PostOutcome.created (createdResponse emptyStore hoursRequest rtA rtB sgGo sgGo 0),
        ⟨emptyStore.trips ++ [newTrip emptyStore hoursRequest 0], emptyStore.next_id + 1⟩) := by
  rw [trip_post_reduce emptyStore hoursRequest envAB 0 rtA rtB [] [] sgGo sgGo [] []
    (by decide) rfl rfl rfl rfl rfl rfl rfl]
  rw [if_neg (by norm_num [hoursRequest, rtA, rtB])]

/-- Evaluating the handler on a 1609 km trip. -/
lemma post_fuel1 :
    TripAPI.post emptyStore fuelRequest envF1 0 =
      (PostOutcome.created (createdResponse emptyStore fuelRequest rtF1 rtZ sgGo sgGo 0),
        ⟨emptyStore.trips ++ [newTrip emptyStore fuelRequest 0], emptyStore.next_id + 1⟩) := by
  rw [trip_post_reduce emptyStore fuelRequest envF1 0 rtF1 rtZ [] [] sgGo sgGo [] []
    (by decide) rfl rfl rfl rfl rfl rfl rfl]
  rw [if_neg (by norm_num [fuelRequest, rtF1, rtZ])]

/-- Evaluating the handler on a 1608.9 km trip. -/
lemma post_fuel2 :
    TripAPI.post emptyStore fuelRequest envF2 0 =
      (PostOutcome.created (createdResponse emptyStore fuelRequest rtF2 rtZ sgGo sgGo 0),
        ⟨emptyStore.trips ++ [newTrip emptyStore fuelRequest 0], emptyStore.next_id + 1⟩) := by
  rw [trip_post_reduce emptyStore fuelRequest envF2 0 rtF2 rtZ [] [] sgGo sgGo [] []
    (by decide) rfl rfl rfl rfl rfl rfl rfl]
  rw [if_neg (by norm_num [fuelRequest, rtF2, rtZ])]

/-- Evaluating the handler on a 3218 km trip. -/
lemma post_fuel3 :
    TripAPI.post emptyStore fuelRequest envF3 0 =
      (PostOutcome.created (createdResponse emptyStore fuelRequest rtF3 rtZ sgGo sgGo 0),
        ⟨emptyStore.trips ++ [newTrip emptyStore fuelRequest 0], emptyStore.next_id + 1⟩) := by
  rw [trip_post_reduce emptyStore fuelRequest envF3 0 rtF3 rtZ [] [] sgGo sgGo [] []
    (by decide) rfl rfl rfl rfl rfl rfl rfl]
  rw [if_neg (by norm_num [fuelRequest, rtF3, rtZ])]

/-- Evaluating the handler on a 70.001-hour trip with 0 cycle hours: rejected,
though the total rounds to 70.00 at two decimals. -/
lemma post_precision :
    TripAPI.post emptyStore fuelRequest envP 0 =
      (PostOutcome.hoursLimitExceeded, emptyStore) := by
  rw [trip_post_reduce emptyStore fuelRequest envP 0 rtP rtZ [] [] sgGo sgGo [] []
    (by decide) rfl rfl rfl rfl rfl rfl rfl]
  rw [if_pos (by norm_num [fuelRequest, rtP, rtZ])]

/-- Claim C1: under valid fields, successful geocoding and routing, the request
is rejected with `HoursLimitExceeded` (400) and the store left unchanged if and
only if `current_cycle_used + total_duration > 70`; the comparison is strict, so
at exactly 70 cumulative hours the trip is accepted and persisted. -/
theorem trip_post_hours_limit
    (s : Store) (r : TripRequest) (env : OrsEnv) (now : Nat)
    (rt1 rt2 : RouteRaw) (l1 l2 : List RouteRaw)
    (hv : TripSerializer.is_valid r = true)
    (hg1 : env.current_geocode.features.isEmpty = false)
    (hg2 : env.pickup_geocode.features.isEmpty = false)
    (hg3 : env.dropoff_geocode.features.isEmpty = false)
    (hr1 : env.directions_current_to_pickup.routes = rt1 :: l1)
    (hr2 : env.directions_pickup_to_dropoff.routes = rt2 :: l2)
    (hs1 : rt1.segments ≠ []) (hs2 : rt2.segments ≠ []) :
    (((TripAPI.post s r env now).1 = PostOutcome.hoursLimitExceeded ∧
        (TripAPI.post s r env now).2 = s)
      ↔ (r.current_cycle_used : ℚ) +
          (rt1.summary.duration / 3600 + rt2.summary.duration / 3600 + 2) > 70)
    ∧ ((r.current_cycle_used : ℚ) +
          (rt1.summary.duration / 3600 + rt2.summary.duration / 3600 + 2) ≤ 70 →
        ∃ resp, (TripAPI.post s r env now).1 = PostOutcome.created resp ∧
          (TripAPI.post s r env now).2.trips = s.trips ++ [resp.trip])
    ∧ PostOutcome.statusCode PostOutcome.hoursLimitExceeded = 400 := by
  obtain ⟨sg1, tl1, hseg1⟩ := List.exists_cons_of_ne_nil hs1
  obtain ⟨sg2, tl2, hseg2⟩ := List.exists_cons_of_ne_nil hs2
  rw [trip_post_reduce s r env now rt1 rt2 l1 l2 sg1 sg2 tl1 tl2 hv hg1 hg2 hg3 hr1 hr2
    hseg1 hseg2]
  by_cases hlim : (r.current_cycle_used : ℚ) +
      (rt1.summary.duration / 3600 + rt2.summary.duration / 3600 + 2) > 70
  · rw [if_pos hlim]
    exact ⟨⟨fun _ => hlim, fun _ => ⟨rfl, rfl⟩⟩, fun hle => absurd hlim (not_lt.mpr hle), rfl⟩
  · rw [if_neg hlim]
    exact ⟨⟨fun h => absurd h.1 (by simp), fun hgt => absurd hgt hlim⟩,
      fun _ => ⟨createdResponse s r rt1 rt2 sg1 sg2 now, rfl, rfl⟩, rfl⟩

/-- Claim C1 witness: 68 cycle hours plus a 2-hour trip reach exactly 70 and the
trip is accepted and persisted. -/
theorem trip_post_hours_limit_witness :
    TripSerializer.is_valid hoursRequest = true ∧
    (hoursRequest.current_cycle_used : ℚ) +
      (rtA.summary.duration / 3600 + rtB.summary.duration / 3600 + 2) ≤ 70 ∧
    (∃ resp, (TripAPI.post emptyStore hoursRequest envAB 0).1 = PostOutcome.created resp ∧
      (TripAPI.post emptyStore hoursRequest envAB 0).2.trips =
        emptyStore.trips ++ [resp.trip]) :=
  ⟨by decide, by norm_num [hoursRequest, rtA, rtB],
    (trip_post_hours_limit emptyStore hoursRequest envAB 0 rtA rtB [] []
      (by decide) rfl rfl rfl rfl rfl (by decide) (by decide)).2.1
      (by norm_num [hoursRequest, rtA, rtB])⟩

/-- Claim C2: every accepted request reports a total duration equal to the sum
of the two leg durations plus the fixed 2-hour overhead, and returns
`hours_remaining = 70 - (current_cycle_used + total_duration)`. -/
theorem trip_post_total_duration
    (s : Store) (r : TripRequest) (env : OrsEnv) (now : Nat)
    (rt1 rt2 : RouteRaw) (l1 l2 : List RouteRaw) (sg1 sg2 : SegmentRaw)
    (tl1 tl2 : List SegmentRaw) (resp : CreatedResponse)
    (hv : TripSerializer.is_valid r = true)
    (hg1 : env.current_geocode.features.isEmpty = false)
    (hg2 : env.pickup_geocode.features.isEmpty = false)
    (hg3 : env.dropoff_geocode.features.isEmpty = false)
    (hr1 : env.directions_current_to_pickup.routes = rt1 :: l1)
    (hr2 : env.directions_pickup_to_dropoff.routes = rt2 :: l2)
    (hseg1 : rt1.segments = sg1 :: tl1) (hseg2 : rt2.segments = sg2 :: tl2)
    (hc : (TripAPI.post s r env now).1 = PostOutcome.created resp) :
    ∃ total : ℚ,
      total = rt1.summary.duration / 3600 + rt2.summary.duration / 3600 + 2 ∧
      resp.route.total_duration = fmt2 total ++ " hrs" ∧
      resp.hours_remaining = 70 - ((r.current_cycle_used : ℚ) + total) ∧
      resp.current_cycle_used = r.current_cycle_used := by
  rw [trip_post_reduce s r env now rt1 rt2 l1 l2 sg1 sg2 tl1 tl2 hv hg1 hg2 hg3 hr1 hr2
    hseg1 hseg2] at hc
  by_cases hlim : (r.current_cycle_used : ℚ) +
      (rt1.summary.duration / 3600 + rt2.summary.duration / 3600 + 2) > 70
  · rw [if_pos hlim] at hc
    exact absurd hc (by simp)
  · rw [if_neg hlim] at hc
    simp only at hc
    rw [PostOutcome.created.injEq] at hc
    subst hc
    exact ⟨_, rfl, rfl, rfl, rfl⟩

/-- Claim C2 witness: the accepted boundary trip reports total duration 0+0+2
and hours remaining 70 - (68 + 2). -/
theorem trip_post_total_duration_witness :
    TripSerializer.is_valid hoursRequest = true ∧
    (TripAPI.post emptyStore hoursRequest envAB 0).1 =
      PostOutcome.created (createdResponse emptyStore hoursRequest rtA rtB sgGo sgGo 0) ∧
    (∃ total : ℚ,
      total = rtA.summary.duration / 3600 + rtB.summary.duration / 3600 + 2 ∧
      (createdResponse emptyStore hoursRequest rtA rtB sgGo sgGo 0).route.total_duration =
        fmt2 total ++ " hrs" ∧
      (createdResponse emptyStore hoursRequest rtA rtB sgGo sgGo 0).hours_remaining =
        70 - ((hoursRequest.current_cycle_used : ℚ) + total) ∧
      (createdResponse emptyStore hoursRequest rtA rtB sgGo sgGo 0).current_cycle_used =
        hoursRequest.current_cycle_used) :=
  ⟨by decide, congrArg Prod.fst post_hoursRequest_envAB,
    trip_post_total_duration emptyStore hoursRequest envAB 0 rtA rtB [] [] sgGo sgGo [] []
      (createdResponse emptyStore hoursRequest rtA rtB sgGo sgGo 0)
      (by decide) rfl rfl rfl rfl rfl rfl rfl
      (congrArg Prod.fst post_hoursRequest_envAB)⟩

/-- Claim C3: trip creation is all-or-nothing: a failure at validation,
geocoding, routing or the hours check leaves the store unchanged, a created
response appends exactly its trip, and any store change requires geocode, route
and rule check to all have succeeded. -/
theorem trip_post_all_or_nothing (s : Store) (r : TripRequest) (env : OrsEnv) (now : Nat) :
    (∀ resp, (TripAPI.post s r env now).1 = PostOutcome.created resp →
      (TripAPI.post s r env now).2.trips = s.trips ++ [resp.trip]) ∧
    (((TripAPI.post s r env now).1 = PostOutcome.validationError ∨
      (TripAPI.post s r env now).1 = PostOutcome.locationsRequired ∨
      (TripAPI.post s r env now).1 = PostOutcome.geocodingError ∨
      (TripAPI.post s r env now).1 = PostOutcome.routingError ∨
      (TripAPI.post s r env now).1 = PostOutcome.hoursLimitExceeded) →
      (TripAPI.post s r env now).2 = s) ∧
    ((TripAPI.post s r env now).2 ≠ s →
      env.current_geocode.features ≠ [] ∧ env.pickup_geocode.features ≠ [] ∧
      env.dropoff_geocode.features ≠ [] ∧
      ∃ rt1 l1 rt2 l2, env.directions_current_to_pickup.routes = rt1 :: l1 ∧
        env.directions_pickup_to_dropoff.routes = rt2 :: l2 ∧
        (r.current_cycle_used : ℚ) +
          (rt1.summary.duration / 3600 + rt2.summary.duration / 3600 + 2) ≤ 70) := by
  refine ⟨?_, ?_, ?_⟩
  · intro resp hc
    obtain ⟨htrip, hstore⟩ := trip_post_created_inv s r env now resp hc
    rw [hstore, htrip]
  · intro hdisj
    rcases trip_post_shape s r env now with ⟨h2, _⟩ | ⟨_, _, _, _, _, houtcome⟩
    · exact h2
    · exfalso
      rcases houtcome with ⟨resp, hco⟩ | hio <;> rcases hdisj with h | h | h | h | h <;>
        simp_all
  · intro hne
    rcases trip_post_shape s r env now with ⟨h2, _⟩ | ⟨_, hg1, hg2, hg3, hroutes, _⟩
    · exact absurd h2 hne
    · refine ⟨?_, ?_, ?_, hroutes⟩ <;> simp_all [List.isEmpty_iff]

/-- Claim C3 witness: a created response appends its trip, and an invalid
request leaves the store unchanged. -/
theorem trip_post_all_or_nothing_witness :
    ((TripAPI.post emptyStore hoursRequest envAB 0).1 =
        PostOutcome.created (createdResponse emptyStore hoursRequest rtA rtB sgGo sgGo 0) →
      (TripAPI.post emptyStore hoursRequest envAB 0).2.trips =
        emptyStore.trips ++ [(createdResponse emptyStore hoursRequest rtA rtB sgGo sgGo 0).trip]) ∧
    (TripAPI.post emptyStore invalidRequest envAB 0).1 = PostOutcome.validationError ∧
    (TripAPI.post emptyStore invalidRequest envAB 0).2 = emptyStore :=
  ⟨(trip_post_all_or_nothing emptyStore hoursRequest envAB 0).1
      (createdResponse emptyStore hoursRequest rtA rtB sgGo sgGo 0),
    by simp [TripAPI.post, TripSerializer.is_valid, invalidRequest],
    (trip_post_all_or_nothing emptyStore invalidRequest envAB 0).2.1
      (Or.inl (by simp [TripAPI.post, TripSerializer.is_valid, invalidRequest]))⟩

/-- Claim C4: every accepted request reports
`fueling_stops = floor(total_distance_km / 1609)`; in particular 1609 km gives
1 stop, 1608.9 km gives 0 stops and 3218 km gives 2 stops. -/
theorem fueling_stops_formula
    (s : Store) (r : TripRequest) (env : OrsEnv) (now : Nat)
    (rt1 rt2 : RouteRaw) (l1 l2 : List RouteRaw) (sg1 sg2 : SegmentRaw)
    (tl1 tl2 : List SegmentRaw) (resp : CreatedResponse)
    (hv : TripSerializer.is_valid r = true)
    (hg1 : env.current_geocode.features.isEmpty = false)
    (hg2 : env.pickup_geocode.features.isEmpty = false)
    (hg3 : env.dropoff_geocode.features.isEmpty = false)
    (hr1 : env.directions_current_to_pickup.routes = rt1 :: l1)
    (hr2 : env.directions_pickup_to_dropoff.routes = rt2 :: l2)
    (hseg1 : rt1.segments = sg1 :: tl1) (hseg2 : rt2.segments = sg2 :: tl2)
    (hc : (TripAPI.post s r env now).1 = PostOutcome.created resp) :
    resp.route.fueling_stops =
      ⌊(rt1.summary.distance / 1000 + rt2.summary.distance / 1000) / 1609⌋ ∧
    (∃ ra, (TripAPI.post emptyStore fuelRequest envF1 0).1 = PostOutcome.created ra ∧
      ra.route.fueling_stops = 1) ∧
    (∃ rb, (TripAPI.post emptyStore fuelRequest envF2 0).1 = PostOutcome.created rb ∧
      rb.route.fueling_stops = 0) ∧
    (∃ rc, (TripAPI.post emptyStore fuelRequest envF3 0).1 = PostOutcome.created rc ∧
      rc.route.fueling_stops = 2) := by
  refine ⟨?_, ⟨_, congrArg Prod.fst post_fuel1, ?_⟩, ⟨_, congrArg Prod.fst post_fuel2, ?_⟩,
    ⟨_, congrArg Prod.fst post_fuel3, ?_⟩⟩
  · rw [trip_post_reduce s r env now rt1 rt2 l1 l2 sg1 sg2 tl1 tl2 hv hg1 hg2 hg3 hr1 hr2
      hseg1 hseg2] at hc
    by_cases hlim : (r.current_cycle_used : ℚ) +
        (rt1.summary.duration / 3600 + rt2.summary.duration / 3600 + 2) > 70
    · rw [if_pos hlim] at hc
      exact absurd hc (by simp)
    · rw [if_neg hlim] at hc
      simp only at hc
      rw [PostOutcome.created.injEq] at hc
      subst hc
      rfl
  · norm_num [createdResponse, legResponse, rtF1, rtZ]
  · norm_num [createdResponse, legResponse, rtF2, rtZ]
  · norm_num [createdResponse, legResponse, rtF3, rtZ]

/-- Claim C4 witness: the 1609 km trip is accepted with exactly one fueling
stop, matching the floor formula. -/
theorem fueling_stops_formula_witness :
    TripSerializer.is_valid fuelRequest = true ∧
    (TripAPI.post emptyStore fuelRequest envF1 0).1 =
      PostOutcome.created (createdResponse emptyStore fuelRequest rtF1 rtZ sgGo sgGo 0) ∧
    (createdResponse emptyStore fuelRequest rtF1 rtZ sgGo sgGo 0).route.fueling_stops =
      ⌊(rtF1.summary.distance / 1000 + rtZ.summary.distance / 1000) / 1609⌋ ∧
    (∃ ra, (TripAPI.post emptyStore fuelRequest envF1 0).1 = PostOutcome.created ra ∧
      ra.route.fueling_stops = 1) :=
  ⟨by decide, congrArg Prod.fst post_fuel1,
    (fueling_stops_formula emptyStore fuelRequest envF1 0 rtF1 rtZ [] [] sgGo sgGo [] []
      (createdResponse emptyStore fuelRequest rtF1 rtZ sgGo sgGo 0)
      (by decide) rfl rfl rfl rfl rfl rfl rfl
      (congrArg Prod.fst post_fuel1)).1,
    (fueling_stops_formula emptyStore fuelRequest envF1 0 rtF1 rtZ [] [] sgGo sgGo [] []
      (createdResponse emptyStore fuelRequest rtF1 rtZ sgGo sgGo 0)
      (by decide) rfl rfl rfl rfl rfl rfl rfl
      (congrArg Prod.fst post_fuel1)).2.1⟩

/-- Claim C5: a request with a missing/empty location or negative
`current_cycle_used` fails serializer validation, is answered with
`ValidationError` (400), leaves the store unchanged, and its outcome does not
depend on the external environment, i.e. precedes any geocoding or routing
call. -/
theorem trip_post_validation (s : Store) (r : TripRequest) (env env2 : OrsEnv)
    (now now2 : Nat)
    (hbad : r.current_location = "" ∨ r.pickup_location = "" ∨
      r.dropoff_location = "" ∨ r.current_cycle_used < 0) :
    TripSerializer.is_valid r = false ∧
    TripAPI.post s r env now = (PostOutcome.validationError, s) ∧
    TripAPI.post s r env now = TripAPI.post s r env2 now2 ∧
    PostOutcome.statusCode PostOutcome.validationError = 400 := by
  have hv : TripSerializer.is_valid r = false := by
    rcases hbad with h | h | h | h
    · simp [TripSerializer.is_valid, h]
    · simp [TripSerializer.is_valid, h]
    · simp [TripSerializer.is_valid, h]
    · simp [TripSerializer.is_valid, not_le.mpr h]
  refine ⟨hv, ?_, ?_, rfl⟩ <;> simp [TripAPI.post, hv]

/-- Claim C5 witness: the empty-location request is rejected with 400 and the
same outcome under two different environments. -/
theorem trip_post_validation_witness :
    (invalidRequest.current_location = "" ∨ invalidRequest.pickup_location = "" ∨
      invalidRequest.dropoff_location = "" ∨ invalidRequest.current_cycle_used < 0) ∧
    TripSerializer.is_valid invalidRequest = false ∧
    TripAPI.post emptyStore invalidRequest envAB 0 =
      (PostOutcome.validationError, emptyStore) ∧
    TripAPI.post emptyStore invalidRequest envAB 0 =
      TripAPI.post emptyStore invalidRequest envAlt 7 ∧
    PostOutcome.statusCode PostOutcome.validationError = 400 :=
  ⟨Or.inl rfl,
    trip_post_validation emptyStore invalidRequest envAB envAlt 0 7 (Or.inl rfl)⟩

/-- Claim C6: after a successful create, `TripAPI.get` on the new id returns a
trip equal in all submitted fields to the request, and a pk matching no
persisted row yields `NotFound` (404). -/
theorem trip_get_roundtrip (s : Store) (r : TripRequest) (env : OrsEnv) (now : Nat)
    (resp : CreatedResponse) (hwf : s.wf)
    (hc : (TripAPI.post s r env now).1 = PostOutcome.created resp) :
    (TripAPI.get (TripAPI.post s r env now).2 (some resp.trip.id) =
        GetOutcome.found resp.trip ∧
      resp.trip.current_location = r.current_location ∧
      resp.trip.pickup_location = r.pickup_location ∧
      resp.trip.dropoff_location = r.dropoff_location ∧
      resp.trip.current_cycle_used = r.current_cycle_used) ∧
    (∀ pk, (∀ t ∈ s.trips, t.id ≠ pk) →
      TripAPI.get s (some pk) = GetOutcome.notFound ∧
      GetOutcome.statusCode (TripAPI.get s (some pk)) = 404) := by
  obtain ⟨htrip, hstore⟩ := trip_post_created_inv s r env now resp hc
  constructor
  · rw [hstore, htrip]
    have hfind := find_append_self s.trips (newTrip s r now)
      (fun u hu => by simpa [newTrip] using Nat.ne_of_lt (hwf u hu))
    exact ⟨by simp [TripAPI.get, hfind], rfl, rfl, rfl, rfl⟩
  · intro pk hpk
    have hnone : s.trips.find? (fun t => t.id == pk) = none :=
      List.find?_eq_none.mpr (fun t ht => by simp [hpk t ht])
    constructor <;> simp [TripAPI.get, hnone, GetOutcome.statusCode]

/-- Claim C6 witness: the boundary trip round-trips through the store, and an
unknown pk on the empty store yields 404. -/
theorem trip_get_roundtrip_witness :
    emptyStore.wf ∧
    (TripAPI.post emptyStore hoursRequest envAB 0).1 =
      PostOutcome.created (createdResponse emptyStore hoursRequest rtA rtB sgGo sgGo 0) ∧
    (TripAPI.get (TripAPI.post emptyStore hoursRequest envAB 0).2
        (some (createdResponse emptyStore hoursRequest rtA rtB sgGo sgGo 0).trip.id) =
      GetOutcome.found (createdResponse emptyStore hoursRequest rtA rtB sgGo sgGo 0).trip ∧
      (createdResponse emptyStore hoursRequest rtA rtB sgGo sgGo 0).trip.current_location =
        hoursRequest.current_location ∧
      (createdResponse emptyStore hoursRequest rtA rtB sgGo sgGo 0).trip.pickup_location =
        hoursRequest.pickup_location ∧
      (createdResponse emptyStore hoursRequest rtA rtB sgGo sgGo 0).trip.dropoff_location =
        hoursRequest.dropoff_location ∧
      (createdResponse emptyStore hoursRequest rtA rtB sgGo sgGo 0).trip.current_cycle_used =
        hoursRequest.current_cycle_used) ∧
    (TripAPI.get emptyStore (some 41) = GetOutcome.notFound ∧
      GetOutcome.statusCode (TripAPI.get emptyStore (some 41)) = 404) :=
  ⟨by decide, congrArg Prod.fst post_hoursRequest_envAB,
    (trip_get_roundtrip emptyStore hoursRequest envAB 0
      (createdResponse emptyStore hoursRequest rtA rtB sgGo sgGo 0) (by decide)
      (congrArg Prod.fst post_hoursRequest_envAB)).1,
    (trip_get_roundtrip emptyStore hoursRequest envAB 0
      (createdResponse emptyStore hoursRequest rtA rtB sgGo sgGo 0) (by decide)
      (congrArg Prod.fst post_hoursRequest_envAB)).2 41 (by decide)⟩

/-- Claim C7: `ELDLogAPI.get` answers 404 when no trip has the requested id;
whenever a trip with the id exists it returns exactly one non-empty PDF page
as a downloadable attachment named `ELD_Log_Trip_` followed by the id, and
every pdf outcome is of that shape. -/
theorem eld_log_render (s : Store) (tid : Nat) (d : String) :
    ((∀ t ∈ s.trips, t.id ≠ tid) →
      ELDLogAPI.get s tid d = EldOutcome.notFound ∧
      EldOutcome.statusCode (ELDLogAPI.get s tid d) = 404) ∧
    (∀ pages fn att, ELDLogAPI.get s tid d = EldOutcome.pdf pages fn att →
      ∃ t, t ∈ s.trips ∧ t.id = tid ∧ pages = [eldPage t d] ∧ pages.length = 1 ∧
        eldPage t d ≠ [] ∧ fn = "ELD_Log_Trip_" ++ toString t.id ++ ".pdf" ∧
        att = true ∧ EldOutcome.statusCode (ELDLogAPI.get s tid d) = 200) ∧
    ((∃ t ∈ s.trips, t.id = tid) →
      ∃ t, t ∈ s.trips ∧ t.id = tid ∧
        ELDLogAPI.get s tid d =
          EldOutcome.pdf [eldPage t d]
            ("ELD_Log_Trip_" ++ toString t.id ++ ".pdf") true ∧
        ([eldPage t d] : List (List DrawCmd)).length = 1 ∧ eldPage t d ≠ [] ∧
        EldOutcome.statusCode (ELDLogAPI.get s tid d) = 200) := by
  refine ⟨?_, ?_, ?_⟩
  · intro h
    have hnone : s.trips.find? (fun t => t.id == tid) = none :=
      List.find?_eq_none.mpr (fun t ht => by simp [h t ht])
    constructor <;> simp [ELDLogAPI.get, hnone, EldOutcome.statusCode]
  · intro pages fn att hp
    cases hfind : s.trips.find? (fun t => t.id == tid) with
    | none => simp [ELDLogAPI.get, hfind] at hp
    | some t =>
      have hmem : t ∈ s.trips := List.mem_of_find?_eq_some hfind
      have hid : t.id = tid := by
        have := List.find?_some hfind
        simpa using this
      rw [ELDLogAPI.get, hfind] at hp
      injection hp with h1 h2 h3
      exact ⟨t, hmem, hid, h1.symm, by rw [h1.symm]; rfl, by simp [eldPage],
        h2.symm, h3.symm, by simp [ELDLogAPI.get, hfind, EldOutcome.statusCode]⟩
  · rintro ⟨t0, hmem0, hid0⟩
    cases hfind : s.trips.find? (fun t => t.id == tid) with
    | none =>
      have := List.find?_eq_none.mp hfind t0 hmem0
      simp [hid0] at this
    | some t =>
      have hmem : t ∈ s.trips := List.mem_of_find?_eq_some hfind
      have hid : t.id = tid := by
        have := List.find?_some hfind
        simpa using this
      refine ⟨t, hmem, hid, ?_, rfl, by simp [eldPage], ?_⟩
      · rw [ELDLogAPI.get, hfind]
      · simp [ELDLogAPI.get, hfind, EldOutcome.statusCode]

/-- Claim C7 witness: id 41 on a one-trip store yields 404, while id 1 exists
and yields the one-page attachment. -/
theorem eld_log_render_witness :
    (∀ t ∈ storeOne.trips, t.id ≠ 41) ∧
    (ELDLogAPI.get storeOne 41 "03/01/2025" = EldOutcome.notFound ∧
      EldOutcome.statusCode (ELDLogAPI.get storeOne 41 "03/01/2025") = 404) ∧
    (∃ t ∈ storeOne.trips, t.id = 1) ∧
    (∃ t, t ∈ storeOne.trips ∧ t.id = 1 ∧
      ELDLogAPI.get storeOne 1 "03/01/2025" =
        EldOutcome.pdf [eldPage t "03/01/2025"]
          ("ELD_Log_Trip_" ++ toString t.id ++ ".pdf") true ∧
      ([eldPage t "03/01/2025"] : List (List DrawCmd)).length = 1 ∧
      eldPage t "03/01/2025" ≠ [] ∧
      EldOutcome.statusCode (ELDLogAPI.get storeOne 1 "03/01/2025") = 200) :=
  ⟨by decide,
    (eld_log_render storeOne 41 "03/01/2025").1 (by decide),
    ⟨tripOne, by decide, rfl⟩,
    (eld_log_render storeOne 1 "03/01/2025").2.2 ⟨tripOne, by decide, rfl⟩⟩

/-- Claim C8: the 70-hour comparison is performed on full-precision values and
the two-decimal rounding `fmt2` appears only in the formatted response fields,
never before the comparison; a 70.001-hour trip is rejected although its
two-decimal rounding is 70.00. -/
theorem hours_limit_full_precision
    (s : Store) (r : TripRequest) (env : OrsEnv) (now : Nat)
    (rt1 rt2 : RouteRaw) (l1 l2 : List RouteRaw) (sg1 sg2 : SegmentRaw)
    (tl1 tl2 : List SegmentRaw)
    (hv : TripSerializer.is_valid r = true)
    (hg1 : env.current_geocode.features.isEmpty = false)
    (hg2 : env.pickup_geocode.features.isEmpty = false)
    (hg3 : env.dropoff_geocode.features.isEmpty = false)
    (hr1 : env.directions_current_to_pickup.routes = rt1 :: l1)
    (hr2 : env.directions_pickup_to_dropoff.routes = rt2 :: l2)
    (hseg1 : rt1.segments = sg1 :: tl1) (hseg2 : rt2.segments = sg2 :: tl2) :
    (((TripAPI.post s r env now).1 = PostOutcome.hoursLimitExceeded) ↔
      (r.current_cycle_used : ℚ) +
        (rt1.summary.duration / 3600 + rt2.summary.duration / 3600 + 2) > 70) ∧
    (∀ resp, (TripAPI.post s r env now).1 = PostOutcome.created resp →
      resp.route.total_duration =
        fmt2 (rt1.summary.duration / 3600 + rt2.summary.duration / 3600 + 2) ++ " hrs" ∧
      resp.hours_remaining =
        70 - ((r.current_cycle_used : ℚ) +
          (rt1.summary.duration / 3600 + rt2.summary.duration / 3600 + 2))) ∧
    ((TripAPI.post emptyStore fuelRequest envP 0).1 = PostOutcome.hoursLimitExceeded ∧
      round2 ((fuelRequest.current_cycle_used : ℚ) +
        (rtP.summary.duration / 3600 + rtZ.summary.duration / 3600 + 2)) ≤ 70) := by
  rw [trip_post_reduce s r env now rt1 rt2 l1 l2 sg1 sg2 tl1 tl2 hv hg1 hg2 hg3 hr1 hr2
    hseg1 hseg2]
  refine ⟨?_, ?_, congrArg Prod.fst post_precision,
    by norm_num [round2, roundHalfEven2, fuelRequest, rtP, rtZ]⟩
  · by_cases hlim : (r.current_cycle_used : ℚ) +
        (rt1.summary.duration / 3600 + rt2.summary.duration / 3600 + 2) > 70
    · rw [if_pos hlim]
      exact ⟨fun _ => hlim, fun _ => rfl⟩
    · rw [if_neg hlim]
      exact ⟨fun h => absurd h (by simp), fun hgt => absurd hgt hlim⟩
  · intro resp hc
    by_cases hlim : (r.current_cycle_used : ℚ) +
        (rt1.summary.duration / 3600 + rt2.summary.duration / 3600 + 2) > 70
    · rw [if_pos hlim] at hc
      exact absurd hc (by simp)
    · rw [if_neg hlim] at hc
      simp only at hc
      rw [PostOutcome.created.injEq] at hc
      subst hc
      exact ⟨rfl, rfl⟩

/-- Claim C8 witness: the boundary instance of the full-precision equivalence
and the concrete 70.001-hour rejection. -/
theorem hours_limit_full_precision_witness :
    TripSerializer.is_valid hoursRequest = true ∧
    (((TripAPI.post emptyStore hoursRequest envAB 0).1 = PostOutcome.hoursLimitExceeded) ↔
      (hoursRequest.current_cycle_used : ℚ) +
        (rtA.summary.duration / 3600 + rtB.summary.duration / 3600 + 2) > 70) ∧
    ((TripAPI.post emptyStore fuelRequest envP 0).1 = PostOutcome.hoursLimitExceeded ∧
      round2 ((fuelRequest.current_cycle_used : ℚ) +
        (rtP.summary.duration / 3600 + rtZ.summary.duration / 3600 + 2)) ≤ 70) :=
  ⟨by decide,
    (hours_limit_full_precision emptyStore hoursRequest envAB 0 rtA rtB [] [] sgGo sgGo
      [] [] (by decide) rfl rfl rfl rfl rfl rfl rfl).1,
    (hours_limit_full_precision emptyStore hoursRequest envAB 0 rtA rtB [] [] sgGo sgGo
      [] [] (by decide) rfl rfl rfl rfl rfl rfl rfl).2.2⟩

/-- Claim C9: the recap section of the rendered ELD log prints the same value,
the trip record field `current_cycle_used`, on all three rule-summary lines
(today, the 70-hour/7-day line and the 60-hour/8-day line). -/
theorem eld_recap_echoes_cycle (t : Trip) (d : String) :
    ∃ v : String, v = toString t.current_cycle_used ∧
      DrawCmd.mk 80 390 ("- On Duty Hours Today: " ++ v ++ " hrs") ∈ eldPage t d ∧
      DrawCmd.mk 80 370
        ("- Total Hours in Last 7 Days (70-hour rule): " ++ v ++ " hrs") ∈ eldPage t d ∧
      DrawCmd.mk 80 350
        ("- Total Hours in Last 8 Days (60-hour rule): " ++ v ++ " hrs") ∈ eldPage t d :=
  ⟨toString t.current_cycle_used, rfl, by simp [eldPage], by simp [eldPage],
    by simp [eldPage]⟩

/-- Claim C10: a persisted trip stores `current_cycle_used` as an integer (the
model field is an `IntegerField`), so the rational value used by the hours
computation and the renderer has denominator 1 and zero fractional part; every
row a create adds carries the integer field of the request. -/
theorem trip_cycle_integral (t : Trip) (d : String) :
    (∃ n : ℤ, t.current_cycle_used = n ∧ Trip.cycleAsRat t = (n : ℚ) ∧
      (Trip.cycleAsRat t).den = 1 ∧ Int.fract (Trip.cycleAsRat t) = 0 ∧
      DrawCmd.mk 80 390
        ("- On Duty Hours Today: " ++ toString n ++ " hrs") ∈ eldPage t d) ∧
    (∀ s r env now, t ∈ (TripAPI.post s r env now).2.trips →
      t ∈ s.trips ∨ t = newTrip s r now) := by
  constructor
  · exact ⟨t.current_cycle_used, rfl, rfl, Rat.den_intCast _, Int.fract_intCast _,
      by simp [eldPage]⟩
  · intro s r env now hmem
    rcases trip_post_shape s r env now with ⟨h2, _⟩ | ⟨h2, _⟩
    · rw [h2] at hmem
      exact Or.inl hmem
    · rw [h2] at hmem
      simpa using hmem

/-- Claim C10 witness: the fixture trip instantiates the integrality facts. -/
theorem trip_cycle_integral_witness :
    (∃ n : ℤ, tripOne.current_cycle_used = n ∧ Trip.cycleAsRat tripOne = (n : ℚ) ∧
      (Trip.cycleAsRat tripOne).den = 1 ∧ Int.fract (Trip.cycleAsRat tripOne) = 0 ∧
      DrawCmd.mk 80 390
        ("- On Duty Hours Today: " ++ toString n ++ " hrs") ∈ eldPage tripOne "03/01/2025") ∧
    (∀ s r env now, tripOne ∈ (TripAPI.post s r env now).2.trips →
      tripOne ∈ s.trips ∨ tripOne = newTrip s r now) :=
  trip_cycle_integral tripOne "03/01/2025"

